import Mathlib

/-!
Verification of the Helios Monte Carlo transport core against its design
specification.  Real numbers (C++ `double`) are embedded as rationals `ℚ`
and machine integers as `ℤ`/`ℕ`; exceptions become `Except`/`Option`.
The definitions below are shallow embeddings of:
  * `src/Material/AceTable/AceReader/Blocks/ITIEBlock.cpp`
  * `src/Geometry/Surfaces/CylinderOnAxis.hpp`
  * `src/Environment/McEnvironment.hpp`
-/

namespace Helios

/-- A 3-dimensional coordinate (the `Coordinate`/`Direction` vector type of
the geometry module), with rational components standing for doubles. -/
structure Coordinate where
  x : ℚ
  y : ℚ
  z : ℚ
deriving DecidableEq, Repr

/-- Component access `p[i]` for `i` an axis index (0 = x, 1 = y, 2 = z). -/
def Coordinate.get (p : Coordinate) (i : Fin 3) : ℚ :=
  if i = 0 then p.x else if i = 1 then p.y else p.z

/-- Component assignment `p[i] = v`. -/
def Coordinate.set (p : Coordinate) (i : Fin 3) (v : ℚ) : Coordinate :=
  if i = 0 then ⟨v, p.y, p.z⟩ else if i = 1 then ⟨p.x, v, p.z⟩ else ⟨p.x, p.y, v⟩

/-- Componentwise vector subtraction. -/
def Coordinate.sub (a b : Coordinate) : Coordinate :=
  ⟨a.x - b.x, a.y - b.y, a.z - b.z⟩

/-- Componentwise vector addition. -/
def Coordinate.add (a b : Coordinate) : Coordinate :=
  ⟨a.x + b.x, a.y + b.y, a.z + b.z⟩

/-- Scalar multiplication `t * d`. -/
def Coordinate.smul (t : ℚ) (d : Coordinate) : Coordinate :=
  ⟨t * d.x, t * d.y, t * d.z⟩

/-- Componentwise division by a scalar (`vnormal /= radius`). -/
def Coordinate.sdiv (a : Coordinate) (r : ℚ) : Coordinate :=
  ⟨a.x / r, a.y / r, a.z / r⟩

/-- Full 3-dimensional dot product. -/
def dotFull (a b : Coordinate) : ℚ :=
  a.x * b.x + a.y * b.y + a.z * b.z

/-- Modelled from the spec: the helper `dotProduct<axis>(a, b)` of
`SurfaceUtils.hpp` (not under `src/`), the dot product over the two
components other than `axis`, per the spec formula
`Σ_{i≠axis}(p_i − c_i)²` for the cylinder-on-axis. -/
def dotProduct (axis : Fin 3) (a b : Coordinate) : ℚ :=
  if axis = 0 then a.y * b.y + a.z * b.z
  else if axis = 1 then a.x * b.x + a.z * b.z
  else a.x * b.x + a.y * b.y

/-- The `BadSurfaceCreation(user_id, reason)` exception. -/
structure BadSurfaceCreation where
  surid : String
  reason : String
deriving DecidableEq, Repr

/-- `CylinderOnAxis<axis>`: an infinite cylinder parallel to one coordinate
axis.  The template parameter `axis` becomes a field; `surid` and `flags`
are the base-class `Surface` data (flags kept abstract as a tag). -/
structure CylinderOnAxis where
  axis : Fin 3
  surid : String
  flags : ℕ
  radius : ℚ
  point : Coordinate
deriving DecidableEq, Repr

/-- `CylinderOnAxis<axis>::function`: `dotProduct<axis>(pos − point, pos − point) − radius²`. -/
def CylinderOnAxis.function (s : CylinderOnAxis) (position : Coordinate) : ℚ :=
  let trpos := Coordinate.sub position s.point
  dotProduct s.axis trpos trpos - s.radius * s.radius

/-- The quadratic coefficients `(a, k, c)` that
`CylinderOnAxis<axis>::intersect` computes and passes to
`quadraticIntersect`: `a = 1 − dir[axis]²`, `k = dotProduct<axis>(dir, trpos)`,
`c = dotProduct<axis>(trpos, trpos) − radius²`. -/
def CylinderOnAxis.intersectCoeffs (s : CylinderOnAxis) (position dir : Coordinate) :
    ℚ × ℚ × ℚ :=
  let trpos := Coordinate.sub position s.point
  (1 - dir.get s.axis * dir.get s.axis,
   dotProduct s.axis dir trpos,
   dotProduct s.axis trpos trpos - s.radius * s.radius)

/-- `CylinderOnAxis<axis>::normal`: `vnormal = position − point`, zero the
axis component, then divide by the radius. -/
def CylinderOnAxis.normal (s : CylinderOnAxis) (position : Coordinate) : Coordinate :=
  let vnormal := Coordinate.sub position s.point
  let vnormal := Coordinate.set vnormal s.axis 0
  Coordinate.sdiv vnormal s.radius

/-- `CylinderOnAxis<axis>::transformate`: translated clone with the same
user id, flags and radius, and `point + trans` as the new axis point. -/
def CylinderOnAxis.transformate (s : CylinderOnAxis) (trans : Coordinate) : CylinderOnAxis :=
  ⟨s.axis, s.surid, s.flags, s.radius, Coordinate.add s.point trans⟩

/-- `CylinderOnAxis<axis>::CylinderOnAxis(surid, coeffs, flags)`: with 3
coefficients, `radius = coeffs[0]`, `point[axis] = 0`, and the loop
`for i < 3, if i ≠ axis then point[i] = coeffs[k+1], k++`; otherwise it
throws `BadSurfaceCreation(surid, "Bad number of coefficients")`. -/
def CylinderOnAxis.fromCoeffs (axis : Fin 3) (surid : String) (flags : ℕ)
    (coeffs : List ℚ) : Except BadSurfaceCreation CylinderOnAxis :=
  if coeffs.length = 3 then
    let radius := coeffs.getD 0 0
    let point0 := Coordinate.set ⟨0, 0, 0⟩ axis 0
    let step : Coordinate × ℕ → Fin 3 → Coordinate × ℕ := fun st i =>
      if i ≠ axis then (Coordinate.set st.1 i (coeffs.getD (st.2 + 1) 0), st.2 + 1) else st
    let point := (([0, 1, 2] : List (Fin 3)).foldl step (point0, 0)).1
    .ok ⟨axis, surid, flags, radius, point⟩
  else
    .error ⟨surid, "Bad number of coefficients"⟩

end Helios

namespace Ace

/-- The ITIE block of an S(α,β) thermal table: the incident-energy grid and
the total inelastic cross-section list, as read by `ITIEBlock::ITIEBlock`. -/
structure ITIEBlock where
  energy : List ℚ
  sigma_in : List ℚ
deriving DecidableEq, Repr

/-- `ITIEBlock::dump`: emit the length word, then the energies, then the
cross-sections. -/
def ITIEBlock.dump (b : ITIEBlock) : List ℚ :=
  (b.energy.length : ℚ) :: (b.energy ++ b.sigma_in)

/-- `ITIEBlock::ITIEBlock` reading at the block cursor: consume a length
word `L` (a double cast to int, i.e. truncated; floor coincides on the
non-negative integral words the format stores), then `L` energies, then
`L` cross-sections.  `none` when the stream is too short. -/
def ITIEBlock.ofWords (words : List ℚ) : Option ITIEBlock :=
  match words with
  | [] => none
  | w :: rest =>
    let table_length := (⌊w⌋).toNat
    if rest.length < 2 * table_length then none
    else some ⟨rest.take table_length, (rest.drop table_length).take table_length⟩

/-- `ITIEBlock::getSize`: `energy.size() * 2 + 1`. -/
def ITIEBlock.getSize (b : ITIEBlock) : ℕ :=
  b.energy.length * 2 + 1

/-- Modelled from the spec: `SabTable::ITIE`, the JXS slot of the ITIE
block (the first pointer of an S(α,β) table); declared in `SabTable.hpp`,
which is not under `src/`. -/
def SabTable.ITIE : ℕ := 0

/-- Modelled from the spec: `shiftJXSArray(JXS_old, JXS_new, slot, size)`
of `AceUtils.hpp` (not under `src/`): add `size` to every `JXS_new[j]`
whose `JXS_old[j] > JXS_old[slot]`, leaving the other entries unchanged. -/
def shiftJXSArray (jxs_old jxs_new : List ℤ) (slot : ℕ) (size : ℤ) : List ℤ :=
  let ref := jxs_old.getD slot 0
  (jxs_old.zip jxs_new).map (fun q => if ref < q.1 then q.2 + size else q.2)

/-- `ITIEBlock::updatePointers`: `shiftJXSArray(jxs_old, jxs_new, SabTable::ITIE, getSize())`. -/
def ITIEBlock.updatePointers (b : ITIEBlock) (jxs_old jxs_new : List ℤ) : List ℤ :=
  shiftJXSArray jxs_old jxs_new SabTable.ITIE (b.getSize : ℤ)

end Ace

namespace Helios

/-- A staged parsed object (`McObject`): its module name, whether
`setEnvironment` has been called on it, and its kind-specific payload. -/
structure McObject (α : Type) where
  moduleName : String
  envSet : Bool
  data : α
deriving DecidableEq, Repr

/-- `McObject::setEnvironment`: record the environment back-reference. -/
def McObject.setEnvironment (o : McObject α) : McObject α :=
  { o with envSet := true }

/-- `McEnvironment`: the three maps (module-name-keyed association lists):
factories, constructed modules, and staged object vectors.  `α` is the
object payload type and `μ` the module type. -/
structure McEnvironment (α μ : Type) where
  factory_map : List (String × (List (McObject α) → μ))
  module_map : List (String × μ)
  object_map : List (String × List (McObject α))

/-- `std::map::operator[]` assignment: replace the entry for `k` when
present, otherwise append it. -/
def mapStore (k : String) (v : β) : List (String × β) → List (String × β)
  | [] => [(k, v)]
  | p :: rest => if p.1 = k then (k, v) :: rest else p :: mapStore k v rest

/-- `McEnvironment::setupModule`: look up the factory (throw when absent);
when staged objects exist, call the factory on them and store the module
under its name; when none exist, return without changes. -/
def McEnvironment.setupModule (env : McEnvironment α μ) (module : String) :
    Except String (McEnvironment α μ) :=
  match env.factory_map.lookup module with
  | some factory =>
    match env.object_map.lookup module with
    | none => .ok env
    | some definitions =>
      .ok { env with module_map := mapStore module (factory definitions) env.module_map }
  | none => .error ("Cannot create module *" ++ module ++ "* (no factory is registered) ")

/-- `McEnvironment::createModule`: look up the factory (throw when
absent), collect the user definitions whose module name matches (calling
`setEnvironment` on each), throw when none match, otherwise return the
factory's product.  The environment is returned alongside: none of its
maps are written. -/
def McEnvironment.createModule (env : McEnvironment α μ) (module : String)
    (user_definitions : List (McObject α)) : Except String μ × McEnvironment α μ :=
  match env.factory_map.lookup module with
  | some factory =>
    let definitions :=
      (user_definitions.filter (fun o => o.moduleName == module)).map McObject.setEnvironment
    if definitions.length = 0 then
      (.error ("Cannot create module *" ++ module ++ "*. The objects supplied by the user does not contain information about that module"), env)
    else
      (.ok (factory definitions), env)
  | none =>
    (.error ("Cannot create module *" ++ module ++ "* (no factory is registered) "), env)

end Helios

namespace Ace

/-- C1: dumping an ITIE block and re-reading the emitted word sequence (a
length word `L`, then `L` energies, then `L` cross-sections) reconstructs
a block with the same `energy` and `sigma_in` fields.  The hypothesis is
the block-shape invariant the `ITIEBlock` constructor establishes: both
lists have the same length. -/
theorem itie_dump_roundtrip (E S : List ℚ) (h : S.length = E.length) :
    ITIEBlock.ofWords (ITIEBlock.dump ⟨E, S⟩) = some ⟨E, S⟩ := by
  have hfloor : (⌊((E.length : ℕ) : ℚ)⌋).toNat = E.length := by
    rw [Int.floor_natCast]
    exact Int.toNat_natCast _
  simp only [ITIEBlock.dump, ITIEBlock.ofWords, hfloor]
  rw [if_neg]
  · rw [List.take_left, List.drop_left, ← h, List.take_length]
  · simp only [List.length_append, h, not_lt]
    omega

theorem itie_dump_roundtrip_witness :
    ([30, 40] : List ℚ).length = ([1, 2] : List ℚ).length ∧
    ITIEBlock.ofWords (ITIEBlock.dump ⟨[1, 2], [30, 40]⟩) = some ⟨[1, 2], [30, 40]⟩ :=
  ⟨rfl, itie_dump_roundtrip [1, 2] [30, 40] rfl⟩

/-- C3: for an ITIE block whose two lists have the length `L` fixed by its
constructor, `getSize` returns `2·L + 1`, and this equals the number of
words `dump` emits. -/
theorem itie_getSize_spec (b : ITIEBlock) (h : b.sigma_in.length = b.energy.length) :
    b.getSize = 2 * b.energy.length + 1 ∧ (ITIEBlock.dump b).length = b.getSize := by
  constructor
  · simp only [ITIEBlock.getSize]
    omega
  · simp only [ITIEBlock.dump, ITIEBlock.getSize, List.length_cons, List.length_append, h]
    omega

theorem itie_getSize_spec_witness :
    ([30, 40] : List ℚ).length = ([1, 2] : List ℚ).length ∧
    (ITIEBlock.mk [1, 2] [30, 40]).getSize = 2 * ([1, 2] : List ℚ).length + 1 ∧
    (ITIEBlock.dump ⟨[1, 2], [30, 40]⟩).length = (ITIEBlock.mk [1, 2] [30, 40]).getSize :=
  ⟨rfl, itie_getSize_spec ⟨[1, 2], [30, 40]⟩ rfl⟩

/-- C4: `updatePointers` adds the block size `2L + 1` exactly to the
entries `JXS_new[j]` with `JXS_old[j] > JXS_old[ITIE]` and leaves every
other entry unchanged. -/
theorem itie_updatePointers_spec (b : ITIEBlock) (jxs_old jxs_new : List ℤ) (j : ℕ)
    (hlen : jxs_old.length = jxs_new.length) (hj : j < jxs_new.length) :
    (b.updatePointers jxs_old jxs_new).getD j 0 =
      if jxs_old.getD SabTable.ITIE 0 < jxs_old.getD j 0 then
        jxs_new.getD j 0 + (b.getSize : ℤ)
      else jxs_new.getD j 0 := by
  have hjo : j < jxs_old.length := by omega
  have hz : j < (jxs_old.zip jxs_new).length := by
    rw [List.length_zip]
    omega
  have hm : j < ((jxs_old.zip jxs_new).map
      (fun q => if jxs_old.getD SabTable.ITIE 0 < q.1 then q.2 + (b.getSize : ℤ) else q.2)).length := by
    simpa using hz
  simp only [ITIEBlock.updatePointers, shiftJXSArray]
  rw [List.getD_eq_getElem _ _ hm, List.getElem_map, List.getElem_zip,
    List.getD_eq_getElem _ _ hjo, List.getD_eq_getElem _ _ hj]

theorem itie_updatePointers_spec_witness :
    ([1, 5] : List ℤ).length = ([10, 20] : List ℤ).length ∧
    1 < ([10, 20] : List ℤ).length ∧
    ((ITIEBlock.mk [1] [2]).updatePointers [1, 5] [10, 20]).getD 1 0 =
      (if ([1, 5] : List ℤ).getD SabTable.ITIE 0 < ([1, 5] : List ℤ).getD 1 0 then
        ([10, 20] : List ℤ).getD 1 0 + ((ITIEBlock.mk [1] [2]).getSize : ℤ)
      else ([10, 20] : List ℤ).getD 1 0) :=
  ⟨rfl, by decide, itie_updatePointers_spec ⟨[1], [2]⟩ [1, 5] [10, 20] 1 rfl (by decide)⟩

end Ace

namespace Helios

/-- Vector identity used for the translated-clone claim:
`p − (c + t) = (p − t) − c`. -/
theorem coordinate_sub_add (p c t : Coordinate) :
    Coordinate.sub p (Coordinate.add c t) = Coordinate.sub (Coordinate.sub p t) c := by
  simp only [Coordinate.sub, Coordinate.add, Coordinate.mk.injEq]
  refine ⟨by ring, by ring, by ring⟩

/-- C5: `CylinderOnAxis::function` returns `Σ_{i≠axis}(p_i − c_i)² − r²`. -/
theorem cylinder_function_spec (s : CylinderOnAxis) (p : Coordinate) :
    s.function p =
      (Finset.filter (fun i => i ≠ s.axis) Finset.univ).sum
        (fun i : Fin 3 => (p.get i - s.point.get i) ^ 2) - s.radius ^ 2 := by
  obtain ⟨axis, surid, flags, radius, point⟩ := s
  fin_cases axis <;>
    simp [CylinderOnAxis.function, dotProduct, Coordinate.sub, Coordinate.get,
      Finset.sum_filter, Fin.sum_univ_three] <;>
    ring

/-- C2: for a unit direction `d`, the coefficients `(a, k, c)` that
`CylinderOnAxis::intersect` passes to `quadraticIntersect` satisfy
`f(p + t·d) = a·t² + 2·k·t + c` for every `t`, so the quadratic's roots
are exactly the parameters at which the ray meets the surface. -/
theorem cylinder_intersect_coeffs_spec (s : CylinderOnAxis) (p d : Coordinate)
    (h : dotFull d d = 1) (t : ℚ) :
    s.function (Coordinate.add p (Coordinate.smul t d)) =
      (s.intersectCoeffs p d).1 * t ^ 2 + 2 * (s.intersectCoeffs p d).2.1 * t +
        (s.intersectCoeffs p d).2.2 ∧
    ((s.intersectCoeffs p d).1 * t ^ 2 + 2 * (s.intersectCoeffs p d).2.1 * t +
        (s.intersectCoeffs p d).2.2 = 0 ↔
      s.function (Coordinate.add p (Coordinate.smul t d)) = 0) := by
  have hmain : s.function (Coordinate.add p (Coordinate.smul t d)) =
      (s.intersectCoeffs p d).1 * t ^ 2 + 2 * (s.intersectCoeffs p d).2.1 * t +
        (s.intersectCoeffs p d).2.2 := by
    obtain ⟨axis, surid, flags, radius, point⟩ := s
    obtain ⟨dx, dy, dz⟩ := d
    obtain ⟨px, py, pz⟩ := p
    obtain ⟨cx, cy, cz⟩ := point
    simp only [dotFull] at h
    fin_cases axis <;>
      simp [CylinderOnAxis.function, CylinderOnAxis.intersectCoeffs, dotProduct,
        Coordinate.add, Coordinate.smul, Coordinate.sub, Coordinate.get] <;>
      linear_combination t ^ 2 * h
  exact ⟨hmain, by rw [hmain]⟩

theorem cylinder_intersect_coeffs_spec_witness :
    dotFull ⟨3 / 5, 4 / 5, 0⟩ ⟨3 / 5, 4 / 5, 0⟩ = 1 ∧
    ((CylinderOnAxis.mk 2 "c" 0 1 ⟨0, 0, 0⟩).function
        (Coordinate.add ⟨2, 0, 0⟩ (Coordinate.smul 7 ⟨3 / 5, 4 / 5, 0⟩)) =
      ((CylinderOnAxis.mk 2 "c" 0 1 ⟨0, 0, 0⟩).intersectCoeffs ⟨2, 0, 0⟩ ⟨3 / 5, 4 / 5, 0⟩).1 * 7 ^ 2 +
        2 * ((CylinderOnAxis.mk 2 "c" 0 1 ⟨0, 0, 0⟩).intersectCoeffs ⟨2, 0, 0⟩ ⟨3 / 5, 4 / 5, 0⟩).2.1 * 7 +
        ((CylinderOnAxis.mk 2 "c" 0 1 ⟨0, 0, 0⟩).intersectCoeffs ⟨2, 0, 0⟩ ⟨3 / 5, 4 / 5, 0⟩).2.2 ∧
      (((CylinderOnAxis.mk 2 "c" 0 1 ⟨0, 0, 0⟩).intersectCoeffs ⟨2, 0, 0⟩ ⟨3 / 5, 4 / 5, 0⟩).1 * 7 ^ 2 +
        2 * ((CylinderOnAxis.mk 2 "c" 0 1 ⟨0, 0, 0⟩).intersectCoeffs ⟨2, 0, 0⟩ ⟨3 / 5, 4 / 5, 0⟩).2.1 * 7 +
        ((CylinderOnAxis.mk 2 "c" 0 1 ⟨0, 0, 0⟩).intersectCoeffs ⟨2, 0, 0⟩ ⟨3 / 5, 4 / 5, 0⟩).2.2 = 0 ↔
        (CylinderOnAxis.mk 2 "c" 0 1 ⟨0, 0, 0⟩).function
          (Coordinate.add ⟨2, 0, 0⟩ (Coordinate.smul 7 ⟨3 / 5, 4 / 5, 0⟩)) = 0)) :=
  ⟨by norm_num [dotFull],
   cylinder_intersect_coeffs_spec (CylinderOnAxis.mk 2 "c" 0 1 ⟨0, 0, 0⟩)
     ⟨2, 0, 0⟩ ⟨3 / 5, 4 / 5, 0⟩ (by norm_num [dotFull]) 7⟩

/-- C6: `transformate` returns a clone with the same user id, flags,
radius and axis, the axis point translated by `trans`, and therefore
satisfies `f'(p) = f(p − trans)` at every point. -/
theorem cylinder_transformate_spec (s : CylinderOnAxis) (trans : Coordinate) :
    (s.transformate trans).surid = s.surid ∧
    (s.transformate trans).flags = s.flags ∧
    (s.transformate trans).radius = s.radius ∧
    (s.transformate trans).axis = s.axis ∧
    (s.transformate trans).point = Coordinate.add s.point trans ∧
    ∀ p : Coordinate,
      (s.transformate trans).function p = s.function (Coordinate.sub p trans) := by
  refine ⟨rfl, rfl, rfl, rfl, rfl, fun p => ?_⟩
  simp only [CylinderOnAxis.function, CylinderOnAxis.transformate]
  rw [coordinate_sub_add]

/-- C9: at a point of the surface (`function(p) = 0`) of a cylinder of
positive radius, `normal` returns the vector `p − point` with its axis
component zeroed divided by the radius, and that vector has unit length. -/
theorem cylinder_normal_spec (s : CylinderOnAxis) (p : Coordinate)
    (hr : 0 < s.radius) (hf : s.function p = 0) :
    dotFull (s.normal p) (s.normal p) = 1 ∧
    s.normal p = Coordinate.sdiv (Coordinate.set (Coordinate.sub p s.point) s.axis 0) s.radius := by
  refine ⟨?_, rfl⟩
  have hr0 : s.radius ≠ 0 := hr.ne'
  obtain ⟨axis, surid, flags, radius, point⟩ := s
  obtain ⟨px, py, pz⟩ := p
  obtain ⟨cx, cy, cz⟩ := point
  simp only [CylinderOnAxis.function] at hf
  fin_cases axis <;>
  · simp [dotProduct, Coordinate.sub, Coordinate.get] at hf
    simp [CylinderOnAxis.normal, Coordinate.sub, Coordinate.set, Coordinate.sdiv, dotFull]
    field_simp
    linear_combination hf

theorem cylinder_normal_spec_witness :
    (0 : ℚ) < (CylinderOnAxis.mk 2 "c" 0 5 ⟨0, 0, 0⟩).radius ∧
    (CylinderOnAxis.mk 2 "c" 0 5 ⟨0, 0, 0⟩).function ⟨3, 4, 7⟩ = 0 ∧
    (dotFull ((CylinderOnAxis.mk 2 "c" 0 5 ⟨0, 0, 0⟩).normal ⟨3, 4, 7⟩)
        ((CylinderOnAxis.mk 2 "c" 0 5 ⟨0, 0, 0⟩).normal ⟨3, 4, 7⟩) = 1 ∧
      (CylinderOnAxis.mk 2 "c" 0 5 ⟨0, 0, 0⟩).normal ⟨3, 4, 7⟩ =
        Coordinate.sdiv
          (Coordinate.set (Coordinate.sub ⟨3, 4, 7⟩ (⟨0, 0, 0⟩ : Coordinate)) 2 0) 5) :=
  ⟨by decide,
   by
     simp +decide [CylinderOnAxis.function, dotProduct, Coordinate.sub]
     all_goals norm_num,
   cylinder_normal_spec (CylinderOnAxis.mk 2 "c" 0 5 ⟨0, 0, 0⟩) ⟨3, 4, 7⟩
     (by decide)
     (by
       simp +decide [CylinderOnAxis.function, dotProduct, Coordinate.sub]
       all_goals norm_num)⟩

/-- C7, counterexample: the claim says creation fails for a degenerate
zero radius, but the constructor only checks the coefficient count: with
coefficients `[0, 1, 2]` it succeeds and returns a radius-0 cylinder. -/
theorem cylinder_fromCoeffs_zero_radius_ok :
    CylinderOnAxis.fromCoeffs 2 "cyl" 0 [0, 1, 2] =
      Except.ok ⟨2, "cyl", 0, 0, ⟨1, 2, 0⟩⟩ := rfl

/-- C7, amended: creation fails with `BadSurfaceCreation` exactly when the
coefficient count differs from 3; with 3 coefficients it always succeeds
(zero radius included), taking `coeffs[0]` as the radius and the remaining
two values as the off-axis components of the axis point. -/
theorem cylinder_fromCoeffs_spec (axis : Fin 3) (surid : String) (flags : ℕ)
    (coeffs : List ℚ) :
    CylinderOnAxis.fromCoeffs axis surid flags coeffs =
      if coeffs.length = 3 then
        Except.ok ⟨axis, surid, flags, coeffs.getD 0 0,
          if axis = 0 then ⟨0, coeffs.getD 1 0, coeffs.getD 2 0⟩
          else if axis = 1 then ⟨coeffs.getD 1 0, 0, coeffs.getD 2 0⟩
          else ⟨coeffs.getD 1 0, coeffs.getD 2 0, 0⟩⟩
      else Except.error ⟨surid, "Bad number of coefficients"⟩ := by
  fin_cases axis <;>
    · simp only [CylinderOnAxis.fromCoeffs]
      split <;> rfl

/-- Storing under a key and looking that key up yields the stored value
(`std::map::operator[]` semantics of `mapStore`). -/
theorem mapStore_lookup (k : String) (v : β) (m : List (String × β)) :
    (mapStore k v m).lookup k = some v := by
  induction m with
  | nil => simp [mapStore, List.lookup]
  | cons p rest ih =>
    by_cases h : p.1 = k
    · simp [mapStore, h, List.lookup]
    · have hne : (k == p.1) = false := by
        simp [beq_iff_eq]
        exact fun e => h e.symm
      simp [mapStore, h, List.lookup, hne, ih]

/-- C8: setting up a module fails when no factory is registered under the
module name; succeeds without any change when a factory exists but no
objects are staged; and otherwise stores the factory's product in the
module map under the module name, leaving the other two maps unchanged. -/
theorem setupModule_spec {α μ : Type} (env : McEnvironment α μ) (module : String) :
    (env.factory_map.lookup module = none →
      env.setupModule module =
        .error ("Cannot create module *" ++ module ++ "* (no factory is registered) ")) ∧
    (∀ factory, env.factory_map.lookup module = some factory →
      env.object_map.lookup module = none →
      env.setupModule module = .ok env) ∧
    (∀ factory definitions, env.factory_map.lookup module = some factory →
      env.object_map.lookup module = some definitions →
      ∃ env2, env.setupModule module = .ok env2 ∧
        env2.module_map.lookup module = some (factory definitions) ∧
        env2.factory_map = env.factory_map ∧
        env2.object_map = env.object_map) := by
  refine ⟨fun h => ?_, fun factory hf ho => ?_, fun factory definitions hf ho => ?_⟩
  · simp [McEnvironment.setupModule, h]
  · simp [McEnvironment.setupModule, hf, ho]
  · refine ⟨{ env with module_map := mapStore module (factory definitions) env.module_map },
      ?_, mapStore_lookup module (factory definitions) env.module_map, rfl, rfl⟩
    simp [McEnvironment.setupModule, hf, ho]

/-- Concrete environment exercising the three branches of `setupModule`:
a factory with staged objects, a factory without staged objects, and a
name with no factory. -/
def envW : McEnvironment Unit ℕ :=
  { factory_map := [("geometry", fun l => l.length), ("materials", fun l => l.length)],
    module_map := [],
    object_map := [("geometry", [⟨"geometry", false, ()⟩])] }

theorem setupModule_spec_witness :
    envW.factory_map.lookup "source" = none ∧
    envW.setupModule "source" =
      .error ("Cannot create module *" ++ "source" ++ "* (no factory is registered) ") ∧
    envW.setupModule "materials" = .ok envW ∧
    (∃ env2, envW.setupModule "geometry" = .ok env2 ∧
      env2.module_map.lookup "geometry" =
        some ((fun (l : List (McObject Unit)) => l.length) [⟨"geometry", false, ()⟩]) ∧
      env2.factory_map = envW.factory_map ∧
      env2.object_map = envW.object_map) :=
  ⟨rfl,
   (setupModule_spec envW "source").1 rfl,
   (setupModule_spec envW "materials").2.1 (fun l => l.length) rfl rfl,
   (setupModule_spec envW "geometry").2.2 (fun l => l.length) [⟨"geometry", false, ()⟩] rfl rfl⟩

/-- C10: `createModule` never writes the environment's factory map, module
map or object map — in every branch (missing factory, no matching
definition, success) the three maps are unchanged and the created module
is not loaded. -/
theorem createModule_preserves_maps {α μ : Type} (env : McEnvironment α μ) (module : String)
    (user_definitions : List (McObject α)) :
    ((env.createModule module user_definitions).2).factory_map = env.factory_map ∧
    ((env.createModule module user_definitions).2).module_map = env.module_map ∧
    ((env.createModule module user_definitions).2).object_map = env.object_map := by
  unfold McEnvironment.createModule
  split <;> (try (dsimp only; split)) <;> exact ⟨rfl, rfl, rfl⟩

end Helios
